import Mathlib

/-!
Shallow embedding of the AgriSense ml-service eligibility-and-ranking pipeline
(`app/services/rules_engine.py`, `app/services/eligibility_engine.py`,
`app/services/ranking_engine.py`, `app/services/hybrid_model.py`) in Lean 4.

Python's dynamically typed values are modelled by the inductive type `Value`;
Python floats are modelled by rationals (exact real arithmetic, the standard
shallow-embedding convention); Python exceptions are modelled by `Except`.
-/

set_option maxHeartbeats 1600000

attribute [local semireducible] Rat.ofScientific Rat.mul Rat.inv Rat.add Rat.sub

namespace AgriSense

/-- Python `str.lower()` (ASCII case folding), character by character.
(The position-based `String.toLower` of the core library is not
kernel-reducible, hence this list-based equivalent.) -/
def strLower (s : String) : String := String.mk (s.data.map Char.toLower)

/-- Python `str.upper()` (ASCII case folding), character by character. -/
def strUpper (s : String) : String := String.mk (s.data.map Char.toUpper)

/-- Dynamic (Python) values appearing in profiles and rule expected values. -/
inductive Value : Type where
  | str : String → Value
  | num : ℚ → Value
  | bool : Bool → Value
  | list : List Value → Value
  | none : Value

mutual

/-- Decidable equality on `Value` (the nested inductive defeats deriving). -/
def valueDecEq : (a b : Value) → Decidable (a = b)
  | Value.str a, Value.str b =>
      match decEq a b with
      | isTrue h => isTrue (h ▸ rfl)
      | isFalse h => isFalse (fun hh => h (Value.str.inj hh))
  | Value.num a, Value.num b =>
      match decEq a b with
      | isTrue h => isTrue (h ▸ rfl)
      | isFalse h => isFalse (fun hh => h (Value.num.inj hh))
  | Value.bool a, Value.bool b =>
      match decEq a b with
      | isTrue h => isTrue (h ▸ rfl)
      | isFalse h => isFalse (fun hh => h (Value.bool.inj hh))
  | Value.list a, Value.list b =>
      match valueDecEqList a b with
      | isTrue h => isTrue (h ▸ rfl)
      | isFalse h => isFalse (fun hh => h (Value.list.inj hh))
  | Value.none, Value.none => isTrue rfl
  | Value.str _, Value.num _ => isFalse (fun h => Value.noConfusion h)
  | Value.str _, Value.bool _ => isFalse (fun h => Value.noConfusion h)
  | Value.str _, Value.list _ => isFalse (fun h => Value.noConfusion h)
  | Value.str _, Value.none => isFalse (fun h => Value.noConfusion h)
  | Value.num _, Value.str _ => isFalse (fun h => Value.noConfusion h)
  | Value.num _, Value.bool _ => isFalse (fun h => Value.noConfusion h)
  | Value.num _, Value.list _ => isFalse (fun h => Value.noConfusion h)
  | Value.num _, Value.none => isFalse (fun h => Value.noConfusion h)
  | Value.bool _, Value.str _ => isFalse (fun h => Value.noConfusion h)
  | Value.bool _, Value.num _ => isFalse (fun h => Value.noConfusion h)
  | Value.bool _, Value.list _ => isFalse (fun h => Value.noConfusion h)
  | Value.bool _, Value.none => isFalse (fun h => Value.noConfusion h)
  | Value.list _, Value.str _ => isFalse (fun h => Value.noConfusion h)
  | Value.list _, Value.num _ => isFalse (fun h => Value.noConfusion h)
  | Value.list _, Value.bool _ => isFalse (fun h => Value.noConfusion h)
  | Value.list _, Value.none => isFalse (fun h => Value.noConfusion h)
  | Value.none, Value.str _ => isFalse (fun h => Value.noConfusion h)
  | Value.none, Value.num _ => isFalse (fun h => Value.noConfusion h)
  | Value.none, Value.bool _ => isFalse (fun h => Value.noConfusion h)
  | Value.none, Value.list _ => isFalse (fun h => Value.noConfusion h)

/-- Decidable equality on lists of `Value`. -/
def valueDecEqList : (a b : List Value) → Decidable (a = b)
  | [], [] => isTrue rfl
  | [], _ :: _ => isFalse (fun h => List.noConfusion h)
  | _ :: _, [] => isFalse (fun h => List.noConfusion h)
  | a :: as1, b :: bs =>
      match valueDecEq a b, valueDecEqList as1 bs with
      | isTrue h1, isTrue h2 => isTrue (h1 ▸ h2 ▸ rfl)
      | isFalse h1, _ => isFalse (fun h => h1 (List.head_eq_of_cons_eq h))
      | _, isFalse h2 => isFalse (fun h => h2 (List.tail_eq_of_cons_eq h))

end

instance : DecidableEq Value := valueDecEq

/-- Python truthiness (`if x:`) for the values we model. -/
def pyTruthy : Value → Bool
  | Value.str s => !s.isEmpty
  | Value.num q => q != 0
  | Value.bool b => b
  | Value.list xs => !xs.isEmpty
  | Value.none => false

/-- Rendering of a rational as a numeric string (models Python `str` on
numbers; binary floating-point representation artifacts are not modelled). -/
def ratStr (q : ℚ) : String :=
  if q.den == 1 then toString q.num else toString q

mutual

/-- Python `repr` of a value (used by `str` on containers). -/
def pyRepr : Value → String
  | Value.str s => "\x27" ++ s ++ "\x27"
  | Value.num q => ratStr q
  | Value.bool b => if b then "True" else "False"
  | Value.list xs => "[" ++ String.intercalate ", " (pyReprList xs) ++ "]"
  | Value.none => "None"

/-- `repr` of each element of a list of values. -/
def pyReprList : List Value → List String
  | [] => []
  | v :: vs => pyRepr v :: pyReprList vs

end

/-- Python `str()` of a value. -/
def pyStr : Value → String
  | Value.str s => s
  | v => pyRepr v

mutual

/-- Python `==` between values: numbers and booleans compare numerically
(`True == 1`), strings compare as strings, lists compare elementwise, and
values of unrelated types compare unequal. -/
def pyEq : Value → Value → Bool
  | Value.num a, Value.num b => a == b
  | Value.num a, Value.bool b => a == (if b then (1 : ℚ) else 0)
  | Value.bool a, Value.num b => (if a then (1 : ℚ) else 0) == b
  | Value.bool a, Value.bool b => a == b
  | Value.str a, Value.str b => a == b
  | Value.list a, Value.list b => pyEqList a b
  | Value.none, Value.none => true
  | _, _ => false

/-- Elementwise Python `==` on lists. -/
def pyEqList : List Value → List Value → Bool
  | [], [] => true
  | a :: as1, b :: bs => pyEq a b && pyEqList as1 bs
  | _, _ => false

end

/-- Substring containment: Python `a in b` for strings. -/
def strContains (a b : String) : Bool := decide (a.toList <:+: b.toList)

/-- Numeric value of a digit string. -/
def digitsVal (ds : List Char) : ℕ :=
  ds.foldl (fun n c => 10 * n + (c.toNat - 48)) 0

/-- Split a character list on a separator (list analogue of `str.split`). -/
def splitOnChar (sep : Char) : List Char → List (List Char)
  | [] => [[]]
  | c :: rest =>
      if c == sep then [] :: splitOnChar sep rest
      else
        match splitOnChar sep rest with
        | [] => [[c]]
        | g :: gs => (c :: g) :: gs

/-- Python `float(s)` on a string: optional surrounding whitespace and sign,
then decimal digits with at most one point (exotic forms such as exponents,
`inf` or `nan` are modelled as failures). -/
def parseFloat? (s : String) : Option ℚ :=
  let t := ((s.data.dropWhile Char.isWhitespace).reverse.dropWhile
    Char.isWhitespace).reverse
  let sign : ℚ :=
    match t with
    | '-' :: _ => -1
    | _ => 1
  let body :=
    match t with
    | '-' :: r => r
    | '+' :: r => r
    | r => r
  match splitOnChar '.' body with
  | [ip] =>
      if (!ip.isEmpty) && ip.all (fun c => c.isDigit) then
        some (sign * (digitsVal ip : ℚ))
      else Option.none
  | [ip, fp] =>
      if (!(ip.isEmpty && fp.isEmpty)) && ip.all (fun c => c.isDigit)
          && fp.all (fun c => c.isDigit) then
        some (sign * ((digitsVal ip : ℚ)
          + (digitsVal fp : ℚ) / (10 : ℚ) ^ fp.length))
      else Option.none
  | _ => Option.none

/-- Python `float(v)`: numbers pass through, booleans coerce to 0/1, numeric
strings parse; anything else raises (modelled as `Except.error`). -/
def pyFloatE : Value → Except Unit ℚ
  | Value.num q => Except.ok q
  | Value.bool b => Except.ok (if b then 1 else 0)
  | Value.str s =>
      match parseFloat? s with
      | some q => Except.ok q
      | Option.none => Except.error ()
  | _ => Except.error ()

/-- Python `x in b` (raw membership): membership for lists, substring test for
strings (raising `TypeError` when `x` is not a string), `TypeError` otherwise. -/
def pyInRawE (x b : Value) : Except Unit Bool :=
  match b with
  | Value.list ys => Except.ok (ys.any (fun y => pyEq x y))
  | Value.str s =>
      match x with
      | Value.str xs => Except.ok (strContains xs s)
      | _ => Except.error ()
  | _ => Except.error ()

/-- `any(x in b for x in xs)` with Python's lazy short-circuit semantics. -/
def anyInE : List Value → Value → Except Unit Bool
  | [], _ => Except.ok false
  | x :: rest, b => do
      let r ← pyInRawE x b
      if r then Except.ok true else anyInE rest b

/-- Operator `==`. -/
def opEqFn (a b : Value) : Except Unit Bool := Except.ok (pyEq a b)

/-- Operator `!=`. -/
def opNeFn (a b : Value) : Except Unit Bool := Except.ok (!pyEq a b)

/-- Operator `<`: `float(a) < float(b)` (a coercion failure raises, the
left operand first as in Python). -/
def opLtFn (a b : Value) : Except Unit Bool :=
  match pyFloatE a, pyFloatE b with
  | Except.ok x, Except.ok y => Except.ok (decide (x < y))
  | Except.error e, _ => Except.error e
  | _, Except.error e => Except.error e

/-- Operator `<=`: `float(a) <= float(b)`. -/
def opLeFn (a b : Value) : Except Unit Bool :=
  match pyFloatE a, pyFloatE b with
  | Except.ok x, Except.ok y => Except.ok (decide (x ≤ y))
  | Except.error e, _ => Except.error e
  | _, Except.error e => Except.error e

/-- Operator `>`: `float(a) > float(b)`. -/
def opGtFn (a b : Value) : Except Unit Bool :=
  match pyFloatE a, pyFloatE b with
  | Except.ok x, Except.ok y => Except.ok (decide (y < x))
  | Except.error e, _ => Except.error e
  | _, Except.error e => Except.error e

/-- Operator `>=`: `float(a) >= float(b)`. -/
def opGeFn (a b : Value) : Except Unit Bool :=
  match pyFloatE a, pyFloatE b with
  | Except.ok x, Except.ok y => Except.ok (decide (y ≤ x))
  | Except.error e, _ => Except.error e
  | _, Except.error e => Except.error e

/-- Operator `in`: `a in b if isinstance(b, list) else
str(a).lower() in str(b).lower()`. -/
def opInFn (a b : Value) : Except Unit Bool :=
  match b with
  | Value.list ys => Except.ok (ys.any (fun y => pyEq a y))
  | _ => Except.ok (strContains (strLower (pyStr a)) (strLower (pyStr b)))

/-- Operator `not_in`: negation of the `in` semantics, branch by branch. -/
def opNotInFn (a b : Value) : Except Unit Bool :=
  match b with
  | Value.list ys => Except.ok (!(ys.any (fun y => pyEq a y)))
  | _ => Except.ok (!(strContains (strLower (pyStr a)) (strLower (pyStr b))))

/-- Operator `contains`: `any(str(b).lower() in str(x).lower() for x in a)
if isinstance(a, list) else str(b).lower() in str(a).lower()`. -/
def opContainsFn (a b : Value) : Except Unit Bool :=
  match a with
  | Value.list xs =>
      Except.ok (xs.any (fun x => strContains (strLower (pyStr b)) (strLower (pyStr x))))
  | _ => Except.ok (strContains (strLower (pyStr b)) (strLower (pyStr a)))

/-- Operator `any_in`: `any(x in b for x in a) if isinstance(a, list) else
a in b`. -/
def opAnyInFn (a b : Value) : Except Unit Bool :=
  match a with
  | Value.list xs => anyInE xs b
  | _ => pyInRawE a b

/-- Operator `equals`: `str(a).lower() == str(b).lower()`. -/
def opEqualsFn (a b : Value) : Except Unit Bool :=
  Except.ok (strLower (pyStr a) == strLower (pyStr b))

/-- The `RulesEngine.OPERATORS` dispatch table. -/
def OPERATORS : List (String × (Value → Value → Except Unit Bool)) :=
  [("==", opEqFn), ("!=", opNeFn), ("<", opLtFn), ("<=", opLeFn),
   (">", opGtFn), (">=", opGeFn), ("in", opInFn), ("not_in", opNotInFn),
   ("contains", opContainsFn), ("any_in", opAnyInFn), ("equals", opEqualsFn)]

/-- `LandType` enum (`app/models/schemas.py`). -/
inductive LandType : Type where
  | irrigated | dry | mixed
deriving DecidableEq

/-- String value of a `LandType` member. -/
def LandType.value : LandType → String
  | LandType.irrigated => "irrigated"
  | LandType.dry => "dry"
  | LandType.mixed => "mixed"

/-- `FarmerType` enum (`app/models/schemas.py`). -/
inductive FarmerType : Type where
  | owner | tenant | sharecropper
deriving DecidableEq

/-- String value of a `FarmerType` member. -/
def FarmerType.value : FarmerType → String
  | FarmerType.owner => "owner"
  | FarmerType.tenant => "tenant"
  | FarmerType.sharecropper => "sharecropper"

/-- `FarmerProfile` (`app/models/schemas.py`); optional string fields model
`Optional[str]` (Python `None` as `Option.none`), floats as rationals. -/
structure FarmerProfile : Type where
  name : String
  mobile : String
  state : String
  district : String
  village : Option String := Option.none
  land_type : LandType
  acreage : ℚ
  main_crops : List String
  family_count : ℤ
  annual_income : ℚ
  farmer_type : FarmerType
  education_level : Option String := some "none"
  irrigation_available : Bool := false
  loan_status : Option String := some "none"
  bank_account_linked : Bool := false
  aadhaar_linked : Bool := false
  caste_category : Option String := some "general"
  livestock : List String := []
  soil_type : Option String := some "unknown"
  water_source : Option String := some "rainfed"
  machinery_owned : List String := []
deriving DecidableEq

/-- Python `x.lower() if x else default` on an optional string field. -/
def optLower (x : Option String) (dflt : String) : String :=
  match x with
  | some s => if s.isEmpty then dflt else strLower s
  | Option.none => dflt

/-- `RulesEngine._get_profile_value`: the fixed field-name mapping (lookup is
on `field.lower()`; a name outside the mapping yields `None`). -/
def get_profile_value (profile : FarmerProfile) (field : String) : Option Value :=
  match strLower field with
  | "acreage" => some (Value.num profile.acreage)
  | "land_area" => some (Value.num profile.acreage)
  | "income" => some (Value.num profile.annual_income)
  | "annual_income" => some (Value.num profile.annual_income)
  | "family_count" => some (Value.num (profile.family_count : ℚ))
  | "family_size" => some (Value.num (profile.family_count : ℚ))
  | "state" => some (Value.str (strLower profile.state))
  | "district" => some (Value.str (strLower profile.district))
  | "land_type" => some (Value.str profile.land_type.value)
  | "farmer_type" => some (Value.str profile.farmer_type.value)
  | "crops" => some (Value.list (profile.main_crops.map Value.str))
  | "main_crops" => some (Value.list (profile.main_crops.map Value.str))
  | "education_level" => some (Value.str (optLower profile.education_level "none"))
  | "irrigation_available" => some (Value.bool profile.irrigation_available)
  | "loan_status" => some (Value.str (optLower profile.loan_status "none"))
  | "bank_account_linked" => some (Value.bool profile.bank_account_linked)
  | "aadhaar_linked" => some (Value.bool profile.aadhaar_linked)
  | "caste_category" => some (Value.str (optLower profile.caste_category "general"))
  | "livestock" => some (Value.list (profile.livestock.map Value.str))
  | "soil_type" => some (Value.str (optLower profile.soil_type "unknown"))
  | "water_source" => some (Value.str (optLower profile.water_source "rainfed"))
  | "machinery_owned" => some (Value.list (profile.machinery_owned.map Value.str))
  | _ => Option.none

/-- `RuleMatch` (`app/models/schemas.py`). -/
structure RuleMatch : Type where
  rule_id : String
  field : String
  operator : String
  expected_value : Value
  actual_value : Value
  passed : Bool
  description : String
deriving DecidableEq

mutual

/-- A node of the rule tree handed to `_evaluate_condition_group`: a leaf rule
dict (`field` / `operator` / `value` / optional `id` / `description`) or a
nested group dict (a dict containing a `conditions` key and optional `logic`).
(The condition list is its own mutual inductive so that the tree walk below
is structural recursion, hence kernel-computable.) -/
inductive Condition : Type where
  | rule (field : String) (operator : String) (value : Value)
      (id : Option String) (description : Option String)
  | group (logic : Option String) (conditions : CondList)

/-- A list of rule-tree nodes. -/
inductive CondList : Type where
  | nil
  | cons (head : Condition) (tail : CondList)

end

/-- Build a `CondList` from a list of conditions. -/
def condListOf : List Condition → CondList
  | [] => CondList.nil
  | c :: cs => CondList.cons c (condListOf cs)

/-- The conditions of a `CondList`, as a list. -/
def CondList.toList : CondList → List Condition
  | CondList.nil => []
  | CondList.cons c cs => c :: cs.toList

/-- Python `if not rules:` on a condition list. -/
def CondList.isEmpty : CondList → Bool
  | CondList.nil => true
  | CondList.cons _ _ => false

/-- `RulesEngine._evaluate_rule`: evaluate a single leaf rule (its `field`,
`operator`, `value`, optional `id` and `description` dict entries) against a
profile, never raising (operator exceptions are caught and fail the rule). -/
def evaluate_rule (field operator : String) (expected_value : Value)
    (idOpt descOpt : Option String) (profile : FarmerProfile) : RuleMatch :=
  let rule_id := idOpt.getD (field ++ "_" ++ operator)
  let description :=
    descOpt.getD (field ++ " " ++ operator ++ " " ++ pyStr expected_value)
  match get_profile_value profile field with
  | Option.none =>
      { rule_id := rule_id, field := field, operator := operator,
        expected_value := expected_value, actual_value := Value.none,
        passed := false,
        description := "Field \x27" ++ field ++ "\x27 not found in profile" }
  | some actual_value =>
      match OPERATORS.lookup operator with
      | Option.none =>
          { rule_id := rule_id, field := field, operator := operator,
            expected_value := expected_value, actual_value := actual_value,
            passed := false,
            description := "Unknown operator: " ++ operator }
      | some op_func =>
          let passed :=
            match op_func actual_value expected_value with
            | Except.ok b => b
            | Except.error _ => false
          { rule_id := rule_id, field := field, operator := operator,
            expected_value := expected_value, actual_value := actual_value,
            passed := passed, description := description }

/-- The final pass verdict of `_evaluate_condition_group` given its collected
matched and failing lists: `AND` ⇔ no failing rule, otherwise (any other
logic string, in particular `OR`) ⇔ some matched rule. -/
def group_pass (logic : String) (matched failing : List RuleMatch) : Bool :=
  if strUpper logic == "AND" then failing.isEmpty else !matched.isEmpty

mutual

/-- One iteration of the loop of `RulesEngine._evaluate_condition_group`:
`acc` holds the buckets contributed by the remaining conditions; a leaf's
`RuleMatch` goes to the matched or failing bucket by its own verdict; a
nested group is evaluated recursively and contributes its matched rules when
it passed, otherwise its failing rules. -/
def evaluate_cond (profile : FarmerProfile) (c : Condition)
    (acc : List RuleMatch × List RuleMatch) : List RuleMatch × List RuleMatch :=
  match c with
  | Condition.group nestedLogicOpt nestedConds =>
      let nested := evaluate_conditions profile nestedConds
      let nestedPass := group_pass (nestedLogicOpt.getD "AND") nested.1 nested.2
      if nestedPass then (nested.1 ++ acc.1, acc.2)
      else (acc.1, nested.2 ++ acc.2)
  | Condition.rule f op v i d =>
      let r := evaluate_rule f op v i d profile
      if r.passed then (r :: acc.1, acc.2) else (acc.1, r :: acc.2)

/-- The loop of `RulesEngine._evaluate_condition_group`: walk the conditions
in order, collecting matched and failing buckets. -/
def evaluate_conditions (profile : FarmerProfile) :
    CondList → List RuleMatch × List RuleMatch
  | CondList.nil => ([], [])
  | CondList.cons c rest =>
      evaluate_cond profile c (evaluate_conditions profile rest)

end

/-- `RulesEngine._evaluate_condition_group`. -/
def evaluate_condition_group (conditions : CondList)
    (profile : FarmerProfile) (logic : String) :
    Bool × List RuleMatch × List RuleMatch :=
  let mf := evaluate_conditions profile conditions
  (group_pass logic mf.1 mf.2, mf.1, mf.2)

mutual

/-- The leaf-rule evaluations below one condition node. -/
def leaf_matches_cond (profile : FarmerProfile) : Condition → List RuleMatch
  | Condition.group _ nested => leaf_matches profile nested
  | Condition.rule f op v i d => [evaluate_rule f op v i d profile]

/-- The full flattened set of leaf-rule evaluations below a condition list
(every leaf, regardless of nesting). -/
def leaf_matches (profile : FarmerProfile) : CondList → List RuleMatch
  | CondList.nil => []
  | CondList.cons c rest =>
      leaf_matches_cond profile c ++ leaf_matches profile rest

end

/-- A scheme definition as the engines consume it: a dict whose entries are
read with `scheme.get(key, default)`; every entry is therefore optional here
and the `.get` default is applied at each use site, as in the source. -/
structure Scheme : Type where
  scheme_id : Option String := Option.none
  name : Option String := Option.none
  name_hi : Option String := Option.none
  name_mr : Option String := Option.none
  rules : Option CondList := Option.none
  rules_logic : Option String := Option.none
  max_benefit : Option ℚ := Option.none
  benefit_type : Option String := Option.none
  benefit_per_hectare : Option ℚ := Option.none
  benefit_percentage : Option ℚ := Option.none
  base_amount : Option ℚ := Option.none
  priority_weight : Option ℚ := Option.none
  required_documents : Option (List String) := Option.none

/-- `RulesEngine.evaluate_scheme`: returns
`(is_eligible, matched_rules, failing_rules, confidence)`; an empty rule list
is vacuously eligible with confidence 1.0. -/
def evaluate_scheme (scheme : Scheme) (profile : FarmerProfile) :
    Bool × List RuleMatch × List RuleMatch × ℚ :=
  let rules := (scheme.rules).getD CondList.nil
  let logic := (scheme.rules_logic).getD "AND"
  if rules.isEmpty then (true, [], [], 1)
  else
    let r := evaluate_condition_group rules profile logic
    let total_rules := r.2.1.length + r.2.2.length
    let confidence :=
      if 0 < total_rules then (r.2.1.length : ℚ) / (total_rules : ℚ) else 1
    (r.1, r.2.1, r.2.2, confidence)

/-- One entry of the result list of `RulesEngine.find_eligible_schemes`. -/
structure EvalResult : Type where
  scheme : Scheme
  is_eligible : Bool
  matched_rules : List RuleMatch
  failing_rules : List RuleMatch
  confidence : ℚ

/-- `RulesEngine.find_eligible_schemes`: evaluate every scheme in order. -/
def find_eligible_schemes (profile : FarmerProfile) (schemes : List Scheme) :
    List EvalResult :=
  schemes.map (fun s =>
    let r := evaluate_scheme s profile
    { scheme := s, is_eligible := r.1, matched_rules := r.2.1,
      failing_rules := r.2.2.1, confidence := r.2.2.2 })

/-- Round-half-to-even on rationals (Python `round` on an exact value). -/
def roundHalfEven (q : ℚ) : ℤ :=
  if q - (⌊q⌋ : ℚ) < 1/2 then ⌊q⌋
  else if 1/2 < q - (⌊q⌋ : ℚ) then ⌊q⌋ + 1
  else if ⌊q⌋ % 2 = 0 then ⌊q⌋ else ⌊q⌋ + 1

/-- Python `round(x, 2)`. -/
def pyRound2 (x : ℚ) : ℚ := (roundHalfEven (x * 100) : ℚ) / 100

/-- `EligibilityScoringEngine.WEIGHTS`: the seven fixed category weights. -/
def WEIGHTS : List (String × ℚ) :=
  [("land", 0.20), ("income", 0.20), ("crop", 0.20), ("location", 0.15),
   ("farmentype", 0.10), ("documents", 0.10), ("special", 0.05)]

/-- The `categories` field-to-category mapping inside
`EligibilityScoringEngine.calculate_score`. -/
def categories : List (String × List String) :=
  [("land", ["acreage", "land_area", "land_type"]),
   ("income", ["income", "annual_income"]),
   ("crop", ["crops", "main_crops"]),
   ("location", ["state", "district", "village"]),
   ("farmentype", ["farmer_type"]),
   ("documents", []),
   ("special", ["irrigation_available", "caste_category", "livestock",
     "soil_type", "water_source", "machinery_owned", "education_level",
     "bank_account_linked", "aadhaar_linked", "loan_status"])]

/-- The `get_cat_score` helper: rules whose lowercased field lies in the
category's field list; empty category defaults to a full pass (1.0). -/
def get_cat_score (category_fields : List String) (all_rules : List RuleMatch) : ℚ :=
  let cat_rules := all_rules.filter (fun r => category_fields.contains (strLower r.field))
  if cat_rules.isEmpty then 1
  else ((cat_rules.filter (fun r => r.passed)).length : ℚ) / (cat_rules.length : ℚ)

/-- The document-readiness sub-score: 1.0 with no required documents,
substring-matched fraction against the supplied list, 0.5 with no list. -/
def document_score (required_docs : List String)
    (available_documents : Option (List String)) : ℚ :=
  if required_docs.isEmpty then 1
  else
    match available_documents with
    | some ads =>
        ((required_docs.filter
            (fun doc => ads.any (fun ad => strContains (strLower doc) (strLower ad)))).length : ℚ)
          / (required_docs.length : ℚ)
    | Option.none => 1/2

/-- The status label for a computed percentage: `>=70` eligible, `>=40`
partially eligible, otherwise ineligible (label, status). -/
def statusOf (final_percentage : ℚ) : String × String :=
  if 70 ≤ final_percentage then ("Eligible", "eligible")
  else if 40 ≤ final_percentage then ("Partial", "partially_eligible")
  else ("Not Eligible", "ineligible")

/-- The dict returned by `EligibilityScoringEngine.calculate_score`. -/
structure ScoreResult : Type where
  eligibility_score : ℚ
  match_percentage : ℚ
  eligibility_label : String
  eligibility_status : String
  category_scores : List (String × ℚ)
  is_fully_eligible : Bool

/-- `EligibilityScoringEngine.calculate_score`: category sub-scores, the
separately computed document readiness, the weighted sum over `WEIGHTS`
(missing categories defaulting to 1.0), the rounded percentage, and the
three-level status. -/
def calculate_score (scheme : Scheme) (profile : FarmerProfile)
    (matched_rules failing_rules : List RuleMatch)
    (available_documents : Option (List String)) : ScoreResult :=
  let all_rules := matched_rules ++ failing_rules
  let core_scores : List (String × ℚ) :=
    ["land", "income", "crop", "location", "farmentype", "special"].map
      (fun cat => (cat, get_cat_score ((categories.lookup cat).getD []) all_rules))
  let doc_score := document_score ((scheme.required_documents).getD [])
    available_documents
  let cat_scores := core_scores ++ [("documents", doc_score)]
  let weighted_score :=
    (WEIGHTS.map (fun cw => ((cat_scores.lookup cw.1).getD 1) * cw.2)).sum
  let final_percentage := pyRound2 (weighted_score * 100)
  let ls := statusOf final_percentage
  { eligibility_score := final_percentage,
    match_percentage := final_percentage,
    eligibility_label := ls.1,
    eligibility_status := ls.2,
    category_scores := cat_scores,
    is_fully_eligible :=
      if all_rules.isEmpty then true else all_rules.all (fun r => r.passed) }

/-- `RankingEngine._estimate_benefit`: fixed amount, per-hectare amount
capped at the maximum, or percentage of a base capped at the maximum. -/
def estimate_benefit (scheme : Scheme) (profile : FarmerProfile) : ℚ :=
  let max_benefit := (scheme.max_benefit).getD 10000
  let benefit_type := (scheme.benefit_type).getD "fixed"
  if benefit_type == "per_hectare" then
    min (((scheme.benefit_per_hectare).getD 5000) * profile.acreage) max_benefit
  else if benefit_type == "percentage" then
    min (((scheme.base_amount).getD 10000)
      * (((scheme.benefit_percentage).getD 50) / 100)) max_benefit
  else max_benefit

/-- `RankingEngine._calculate_rank_score`: the six-component weighted sum,
rounded to two decimals and clamped into [0, 100]. -/
def calculate_rank_score (eligibility_score : ℚ) (scheme : Scheme)
    (profile : FarmerProfile) (doc_readiness : ℚ) (success_prob : ℚ) : ℚ :=
  let s1 := 0.35 * eligibility_score
  let benefit := estimate_benefit scheme profile
  let benefit_weight := min ((benefit / 50000) * 100) 100
  let s2 := 0.25 * benefit_weight
  let priority := ((scheme.priority_weight).getD 1) * 100
  let s3 := 0.15 * min priority 100
  let s4 := 0.10 * (doc_readiness * 100)
  let s5 := 0.10 * (success_prob * 100)
  let s6 := 0.05 * 100
  let total_score := s1 + s2 + s3 + s4 + s5 + s6
  min (max (pyRound2 total_score) 0) 100

/-- `RankingEngine._get_confidence_level`. -/
def get_confidence_level (confidence : ℚ) : String :=
  if 0.8 ≤ confidence then "high"
  else if 0.5 ≤ confidence then "medium"
  else "low"

/-- Python `field.replace("_", " ")` (single-character pattern, so a
character map). -/
def underscoreToSpace (s : String) : String :=
  String.mk (s.data.map (fun c => if c == '_' then ' ' else c))

/-- Python `str.title()`: uppercase the first character of every alphabetic
run, lowercase the rest. -/
def titleCase (s : String) : String :=
  String.mk (s.toList.foldl
    (fun (acc : List Char × Bool) c =>
      if c.isAlpha then
        (acc.1 ++ [if acc.2 then c.toLower else c.toUpper], true)
      else (acc.1 ++ [c], false))
    ([], false)).1

/-- One matched rule's entry in the "why" list
(`RankingEngine._build_why_array` loop body); `Option.none` when the rule
contributes nothing (empty description fallthrough). -/
def why_entry (r : RuleMatch) : Option String :=
  if (r.operator = "==" ∨ r.operator = "in") ∧ pyTruthy r.expected_value then
    let val_str :=
      match r.expected_value with
      | Value.list xs => String.intercalate ", " ((xs.take 3).map pyStr)
      | v => pyStr v
    some (titleCase (underscoreToSpace r.field) ++ " " ++ r.operator ++ " " ++ val_str)
  else if (r.operator = "<" ∨ r.operator = "<=" ∨ r.operator = ">"
      ∨ r.operator = ">=") ∧ r.actual_value ≠ Value.none then
    some (titleCase (underscoreToSpace r.field) ++ " " ++ r.operator ++ " "
      ++ pyStr r.expected_value ++ " ✓")
  else if !r.description.isEmpty then some r.description
  else Option.none

/-- `RankingEngine._build_why_array`: matched-rule renderings, then up to two
failing-rule descriptions marked negative, truncated to eight entries. -/
def build_why_array (matched_rules failing_rules : List RuleMatch) : List String :=
  ((matched_rules.filterMap why_entry)
    ++ (failing_rules.take 2).map (fun r => "✗ " ++ r.description)).take 8

/-- Digit chunks of three (input is the reversed digit list). -/
def chunk3 : List Char → List (List Char)
  | [] => []
  | a :: b :: c :: rest => [a, b, c] :: chunk3 rest
  | l => [l]

/-- Comma-grouped rendering of an integer. -/
def commaGroup (n : ℤ) : String :=
  let withCommas := String.intercalate ","
    ((chunk3 (toString n.natAbs).toList.reverse).map (fun g => String.mk g))
  (if n < 0 then "-" else "") ++ String.mk withCommas.toList.reverse

/-- Python `f"{q:,.0f}"`: round to a whole number, group by thousands. -/
def fmtMoney (q : ℚ) : String := commaGroup (roundHalfEven q)

/-- `RankingEngine._generate_explanation` (English, Hindi, Marathi).
The two non-first branches index `failing_rules[0]`; the `IndexError` that a
hypothetical empty list would raise there is modelled as `Except.error`. -/
def generate_explanationE (scheme : Scheme)
    (matched_rules failing_rules : List RuleMatch) (benefit : ℚ) :
    Except String (String × String × String) := do
  let scheme_name := (scheme.name).getD "This scheme"
  let en ←
    if failing_rules.length = 0 then
      Except.ok ("You are fully eligible for " ++ scheme_name ++ ". "
        ++ "You could receive up to ₹" ++ fmtMoney benefit ++ ". "
        ++ (match matched_rules with
            | [] => ""
            | m0 :: _ => "Key qualifications: " ++ m0.description))
    else if failing_rules.length < matched_rules.length then
      match failing_rules with
      | [] => Except.error "IndexError: list index out of range"
      | f0 :: _ =>
          Except.ok ("You are partially eligible for " ++ scheme_name ++ ". "
            ++ "Potential benefit: ₹" ++ fmtMoney benefit ++ ". "
            ++ "Missing: " ++ f0.description)
    else
      match failing_rules with
      | [] => Except.error "IndexError: list index out of range"
      | f0 :: _ =>
          Except.ok ("Currently not eligible for " ++ scheme_name ++ ". "
            ++ "Main reason: " ++ f0.description)
  let hi :=
    if failing_rules.length = 0 then
      "आप " ++ ((scheme.name_hi).getD scheme_name)
        ++ " के लिए पूर्ण रूप से पात्र हैं। "
        ++ "आपको ₹" ++ fmtMoney benefit ++ " तक मिल सकते हैं।"
    else
      "आप " ++ ((scheme.name_hi).getD scheme_name)
        ++ " के लिए आंशिक रूप से पात्र हैं।"
  let mr :=
    if failing_rules.length = 0 then
      "तुम्ही " ++ ((scheme.name_mr).getD scheme_name)
        ++ " साठी पूर्णपणे पात्र आहात। "
        ++ "तुम्हाला ₹" ++ fmtMoney benefit ++ " पर्यंत मिळू शकतात।"
    else
      "तुम्ही " ++ ((scheme.name_mr).getD scheme_name)
        ++ " साठी अंशतः पात्र आहात।"
  Except.ok (en, hi, mr)

/-- `HybridModel.predict_probability`: the loaded model is a pluggable
estimator that may raise; a missing model yields the neutral 0.5 and any
estimator exception is caught and replaced by 0.5. -/
def predict_probability
    (model : Option (FarmerProfile → Scheme → Except String ℚ))
    (profile : FarmerProfile) (scheme : Scheme) : ℚ :=
  match model with
  | Option.none => 1/2
  | some m =>
      match m profile scheme with
      | Except.ok p => p
      | Except.error _ => 1/2

/-- `DocumentFields` (`app/models/schemas.py`): the document payload of a
scheme-match request. Its attributes are `doc_type`, `name`, `id_number`,
`land_id`, `address` and `geo_hints` — there is no `field_name`. -/
structure DocumentFields : Type where
  doc_type : Option String := Option.none
  name : Option String := Option.none
  id_number : Option String := Option.none
  land_id : Option String := Option.none
  address : Option String := Option.none
  geo_hints : Option String := Option.none

/-- The attribute access `d.field_name` in `RankingEngine.rank_schemes`
(line 187): `DocumentFields` has no such attribute (only `OCRField` does),
so the access raises `AttributeError` for every document. -/
def docFieldName (_d : DocumentFields) : Except String String :=
  Except.error
    "AttributeError: \x27DocumentFields\x27 object has no attribute \x27field_name\x27"

/-- `doc_names = [d.field_name for d in documents] if documents else None`
(evaluated inside the per-result loop of `rank_schemes`). -/
def doc_names_of (documents : Option (List DocumentFields)) :
    Except String (Option (List String)) :=
  match documents with
  | Option.none => Except.ok Option.none
  | some ds =>
      if ds.isEmpty then Except.ok Option.none
      else (ds.mapM docFieldName).map some

/-- `SchemeRecommendation` (`app/models/schemas.py`). -/
structure SchemeRecommendation : Type where
  scheme_id : String
  name : String
  name_hi : Option String
  name_mr : Option String
  score : ℚ
  benefit_estimate : ℚ
  confidence : String
  matched_rules : List RuleMatch
  failing_rules : List RuleMatch
  why : List String
  textual_explanation : String
  textual_explanation_hi : String
  textual_explanation_mr : String
  expected_documents : List String
  eligibility_status : String
  eligibility_percentage : ℚ
  success_probability : ℚ
  confidence_score : ℚ

/-- The body of the per-result loop of `RankingEngine.rank_schemes`: score
the result, estimate success probability and benefit, build explanations and
construct the `SchemeRecommendation`. -/
def build_recommendationE
    (model : Option (FarmerProfile → Scheme → Except String ℚ))
    (profile : FarmerProfile) (documents : Option (List DocumentFields))
    (result : EvalResult) : Except String SchemeRecommendation := do
  let scheme := result.scheme
  let doc_names ← doc_names_of documents
  let e_result := calculate_score scheme profile result.matched_rules
    result.failing_rules doc_names
  let eligibility_score := e_result.eligibility_score
  let doc_readiness := ((e_result.category_scores).lookup "documents").getD 0.5
  let success_prob := predict_probability model profile scheme
  let rank_score := calculate_rank_score eligibility_score scheme profile
    doc_readiness success_prob
  let benefit := estimate_benefit scheme profile
  let explanations ← generate_explanationE scheme result.matched_rules
    result.failing_rules benefit
  let why_array := build_why_array result.matched_rules result.failing_rules
  Except.ok
    { scheme_id := (scheme.scheme_id).getD "",
      name := (scheme.name).getD "",
      name_hi := scheme.name_hi,
      name_mr := scheme.name_mr,
      score := rank_score,
      benefit_estimate := benefit,
      confidence := get_confidence_level (eligibility_score / 100),
      matched_rules := result.matched_rules,
      failing_rules := result.failing_rules,
      why := why_array,
      textual_explanation := explanations.1,
      textual_explanation_hi := explanations.2.1,
      textual_explanation_mr := explanations.2.2,
      expected_documents := (scheme.required_documents).getD [],
      eligibility_status := e_result.eligibility_status,
      eligibility_percentage := eligibility_score,
      success_probability := success_prob,
      confidence_score := eligibility_score / 100 }

/-- The sort bucket of an eligibility status: eligible 0, partially eligible
1, anything else 2. -/
def status_bucket (status : String) : ℕ :=
  if status == "eligible" then 0
  else if status == "partially_eligible" then 1
  else 2

/-- The comparison realised by Python `list.sort(key=lambda x:
(bucket, -score))`: ascending status bucket, then descending score. -/
def rec_le (a b : SchemeRecommendation) : Bool :=
  decide (status_bucket a.eligibility_status < status_bucket b.eligibility_status
    ∨ (status_bucket a.eligibility_status = status_bucket b.eligibility_status
      ∧ b.score ≤ a.score))

/-- `RankingEngine.rank_schemes`: build a recommendation per evaluation
result, stable-sort by (status bucket ascending, score descending), truncate
to `top_k`. Python's stable `list.sort` is modelled by `List.mergeSort`. -/
def rank_schemes (model : Option (FarmerProfile → Scheme → Except String ℚ))
    (eligible_results : List EvalResult) (profile : FarmerProfile)
    (documents : Option (List DocumentFields)) (top_k : ℕ) :
    Except String (List SchemeRecommendation) := do
  let recommendations ← eligible_results.mapM
    (build_recommendationE model profile documents)
  Except.ok ((recommendations.mergeSort rec_le).take top_k)

/-- The core of `POST /schemes/match` (`app/api/schemes.py`):
`find_eligible_schemes` then `rank_schemes`. -/
def evaluate_and_rank (model : Option (FarmerProfile → Scheme → Except String ℚ))
    (profile : FarmerProfile) (schemes : List Scheme)
    (documents : Option (List DocumentFields)) (top_k : ℕ) :
    Except String (List SchemeRecommendation) :=
  rank_schemes model (find_eligible_schemes profile schemes) profile documents top_k

/-! ### Concrete demonstration data -/

/-- A concrete demonstration profile (mirrors the repository's test data). -/
def p0 : FarmerProfile :=
  { name := "Test Farmer", mobile := "9876543210", state := "maharashtra",
    district := "pune", land_type := LandType.irrigated, acreage := 1.5,
    main_crops := ["rice", "wheat"], family_count := 4,
    annual_income := 150000, farmer_type := FarmerType.owner }

/-- Leaf rule `acreage <= 2` (passes on `p0`). -/
def ruleA : Condition :=
  Condition.rule "acreage" "<=" (Value.num 2) Option.none Option.none

/-- Leaf rule `income <= 1000` (fails on `p0`). -/
def ruleB : Condition :=
  Condition.rule "income" "<=" (Value.num 1000) Option.none Option.none

/-- A failing rule on the `family_count` profile field. -/
def fcFail : RuleMatch :=
  { rule_id := "family_count_>=", field := "family_count", operator := ">=",
    expected_value := Value.num 10, actual_value := Value.num 4, passed := false,
    description := "family_count >= 10" }

/-- Whether a condition node is a leaf rule (no `conditions` key). -/
def Condition.isLeaf : Condition → Bool
  | Condition.rule _ _ _ _ _ => true
  | Condition.group _ _ => false

/-- A rule tree with one nested OR group holding `ruleA` (passes) and
`ruleB` (fails). -/
def nested_conds : CondList :=
  condListOf [Condition.group (some "OR") (condListOf [ruleA, ruleB])]

/-- A passing rule on the `income` profile field. -/
def incomePass : RuleMatch :=
  { rule_id := "income_<=", field := "income", operator := "<=",
    expected_value := Value.num 200000, actual_value := Value.num 150000,
    passed := true, description := "income <= 200000" }

/-- A scheme whose every entry is absent (all `.get` defaults apply;
in particular an empty rule list, hence vacuous eligibility). -/
def scheme0 : Scheme := {}

/-- A concrete request document. -/
def doc0 : DocumentFields := { doc_type := some "aadhaar" }

/-- Whether an `Except` value is a success. -/
def exceptIsOk {e a : Type} : Except e a → Bool
  | Except.ok _ => true
  | Except.error _ => false

/-! ### Helper lemmas -/

theorem roundHalfEven_le (q : ℚ) : roundHalfEven q ≤ ⌊q⌋ + 1 := by
  unfold roundHalfEven
  split_ifs <;> omega

theorem le_roundHalfEven (q : ℚ) : ⌊q⌋ ≤ roundHalfEven q := by
  unfold roundHalfEven
  split_ifs <;> omega

theorem roundHalfEven_mono {x y : ℚ} (h : x ≤ y) :
    roundHalfEven x ≤ roundHalfEven y := by
  have hf : ⌊x⌋ ≤ ⌊y⌋ := Int.floor_le_floor h
  rcases eq_or_lt_of_le hf with heq | hlt
  · have hc : ((⌊x⌋ : ℤ) : ℚ) = ((⌊y⌋ : ℤ) : ℚ) := by exact_mod_cast heq
    unfold roundHalfEven
    split_ifs <;> first | omega | (exfalso; linarith)
  · calc roundHalfEven x ≤ ⌊x⌋ + 1 := roundHalfEven_le x
      _ ≤ ⌊y⌋ := by omega
      _ ≤ roundHalfEven y := le_roundHalfEven y

theorem pyRound2_mono {x y : ℚ} (h : x ≤ y) : pyRound2 x ≤ pyRound2 y := by
  unfold pyRound2
  have h2 : roundHalfEven (x * 100) ≤ roundHalfEven (y * 100) :=
    roundHalfEven_mono (by linarith)
  have h3 : ((roundHalfEven (x * 100) : ℤ) : ℚ) ≤ ((roundHalfEven (y * 100) : ℤ) : ℚ) := by
    exact_mod_cast h2
  linarith

/-- The status mapping, by cases on the percentage. -/
theorem statusOf_spec (p : ℚ) :
    ((statusOf p).2 = "eligible" ↔ 70 ≤ p)
    ∧ ((statusOf p).2 = "partially_eligible" ↔ 40 ≤ p ∧ p < 70)
    ∧ ((statusOf p).2 = "ineligible" ↔ p < 40) := by
  unfold statusOf
  split_ifs with h1 h2
  · refine ⟨⟨fun _ => h1, fun _ => rfl⟩, ⟨fun h => absurd h (by decide), ?_⟩,
      ⟨fun h => absurd h (by decide), ?_⟩⟩
    · intro h; linarith [h.2]
    · intro h; linarith
  · refine ⟨⟨fun h => absurd h (by decide), fun h => absurd h h1⟩,
      ⟨fun _ => ⟨h2, lt_of_not_le h1⟩, fun _ => rfl⟩,
      ⟨fun h => absurd h (by decide), ?_⟩⟩
    intro h; linarith
  · refine ⟨⟨fun h => absurd h (by decide), fun h => absurd h h1⟩,
      ⟨fun h => absurd h (by decide), fun h => absurd h.1 h2⟩,
      ⟨fun _ => lt_of_not_le h2, fun _ => rfl⟩⟩

/-- Unfolding of the eligibility percentage: the weighted sum over the six
core categories and the document sub-score, rounded to two decimals. -/
theorem calculate_score_eligibility_eq (scheme : Scheme) (profile : FarmerProfile)
    (matched failing : List RuleMatch) (docs : Option (List String)) :
    (calculate_score scheme profile matched failing docs).eligibility_score
      = pyRound2 ((get_cat_score ["acreage", "land_area", "land_type"] (matched ++ failing) * 0.20
        + (get_cat_score ["income", "annual_income"] (matched ++ failing) * 0.20
        + (get_cat_score ["crops", "main_crops"] (matched ++ failing) * 0.20
        + (get_cat_score ["state", "district", "village"] (matched ++ failing) * 0.15
        + (get_cat_score ["farmer_type"] (matched ++ failing) * 0.10
        + (document_score ((scheme.required_documents).getD []) docs * 0.10
        + (get_cat_score ["irrigation_available", "caste_category", "livestock",
            "soil_type", "water_source", "machinery_owned", "education_level",
            "bank_account_linked", "aadhaar_linked", "loan_status"] (matched ++ failing) * 0.05
        + 0))))))) * 100) := rfl

/-- Moving one failing rule to the matched side (with its verdict flipped to
passed) never decreases a category sub-score. -/
theorem get_cat_score_move (F : List String) (matched failing : List RuleMatch)
    (r : RuleMatch) (hr : r.passed = false) :
    get_cat_score F (matched ++ (r :: failing))
      ≤ get_cat_score F (({r with passed := true} :: matched) ++ failing) := by
  simp only [get_cat_score, List.filter_append, List.filter_cons]
  by_cases hP : F.contains (strLower r.field) = true
  · simp only [hP, hr, eq_self_iff_true, if_true, if_false, Bool.false_eq_true,
      List.isEmpty_iff, List.append_eq_nil, List.cons_ne_nil, and_false, false_and,
      ite_false, ite_true, List.length_append, List.length_cons]
    simp only [List.filter_cons, hr, Bool.false_eq_true, ite_false, ite_true,
      List.length_cons]
    push_cast
    rw [div_le_div_iff (by positivity) (by positivity)]
    ring_nf
    nlinarith [sq_nonneg (1 : ℚ)]
  · simp only [hP, hr, if_false, Bool.false_eq_true, ite_false, Bool.not_eq_true]
    exact le_refl _

/-- The status carried by a score result is the status mapping applied to
its own percentage. -/
theorem calculate_score_status (scheme : Scheme) (profile : FarmerProfile)
    (matched failing : List RuleMatch) (docs : Option (List String)) :
    (calculate_score scheme profile matched failing docs).eligibility_status
      = (statusOf (calculate_score scheme profile matched failing docs).eligibility_score).2 := rfl

/-! ### Claim theorems -/

/-- C3: the computed status label is exactly: eligible iff the percentage is
at least 70, partially eligible iff it is in [40, 70), ineligible iff it is
below 40; and the boundary percentages 70.00, 69.99, 40.00, 39.99 are labelled
eligible, partially eligible, partially eligible and ineligible respectively. -/
theorem C3_status_thresholds (scheme : Scheme) (profile : FarmerProfile)
    (matched failing : List RuleMatch) (docs : Option (List String)) :
    (((calculate_score scheme profile matched failing docs).eligibility_status = "eligible"
        ↔ 70 ≤ (calculate_score scheme profile matched failing docs).eligibility_score)
      ∧ ((calculate_score scheme profile matched failing docs).eligibility_status = "partially_eligible"
        ↔ 40 ≤ (calculate_score scheme profile matched failing docs).eligibility_score
          ∧ (calculate_score scheme profile matched failing docs).eligibility_score < 70)
      ∧ ((calculate_score scheme profile matched failing docs).eligibility_status = "ineligible"
        ↔ (calculate_score scheme profile matched failing docs).eligibility_score < 40))
    ∧ (statusOf 70).2 = "eligible"
    ∧ (statusOf 69.99).2 = "partially_eligible"
    ∧ (statusOf 40).2 = "partially_eligible"
    ∧ (statusOf 39.99).2 = "ineligible" := by
  refine ⟨?_, by decide, by decide, by decide, by decide⟩
  rw [calculate_score_status]
  exact statusOf_spec _

/-- C6: for every rule group, logic AND passes iff the (recursively
flattened) failing list is empty, and logic OR passes iff the matched list
is non-empty. -/
theorem C6_group_logic (conditions : CondList) (profile : FarmerProfile)
    (logic : String) :
    (logic = "AND" →
      ((evaluate_condition_group conditions profile logic).1 = true
        ↔ (evaluate_condition_group conditions profile logic).2.2 = []))
    ∧ (logic = "OR" →
      ((evaluate_condition_group conditions profile logic).1 = true
        ↔ (evaluate_condition_group conditions profile logic).2.1 ≠ [])) := by
  constructor
  · intro h; subst h
    have hAND : (strUpper "AND" == "AND") = true := by decide
    simp [evaluate_condition_group, group_pass, hAND, List.isEmpty_iff]
  · intro h; subst h
    have hOR : (strUpper "OR" == "AND") = false := by decide
    simp [evaluate_condition_group, group_pass, hOR, List.isEmpty_iff]

/-- Witness for C6 at a concrete rule group and profile. -/
theorem C6_group_logic_witness :
    (("AND" : String) = "AND"
      ∧ ((evaluate_condition_group (condListOf [ruleA, ruleB]) p0 "AND").1 = true
        ↔ (evaluate_condition_group (condListOf [ruleA, ruleB]) p0 "AND").2.2 = []))
    ∧ (("OR" : String) = "OR"
      ∧ ((evaluate_condition_group (condListOf [ruleA, ruleB]) p0 "OR").1 = true
        ↔ (evaluate_condition_group (condListOf [ruleA, ruleB]) p0 "OR").2.1 ≠ [])) :=
  ⟨⟨rfl, (C6_group_logic (condListOf [ruleA, ruleB]) p0 "AND").1 rfl⟩,
   ⟨rfl, (C6_group_logic (condListOf [ruleA, ruleB]) p0 "OR").2 rfl⟩⟩

/-- C2: the rank score is exactly the six-component weighted sum
0.35·eligibility + 0.25·min(benefit/50000·100, 100) +
0.15·min(priority·100, 100) + 0.10·documentReadiness·100 +
0.10·successProbability·100 + 0.05·100, rounded to two decimals and clamped
into [0, 100]; in particular it always lies within [0, 100]. -/
theorem C2_rank_score_formula (eligibility_score : ℚ) (scheme : Scheme)
    (profile : FarmerProfile) (doc_readiness success_prob : ℚ) :
    calculate_rank_score eligibility_score scheme profile doc_readiness success_prob
      = min (max (pyRound2 (0.35 * eligibility_score
            + 0.25 * min (estimate_benefit scheme profile / 50000 * 100) 100
            + 0.15 * min (((scheme.priority_weight).getD 1) * 100) 100
            + 0.10 * (doc_readiness * 100)
            + 0.10 * (success_prob * 100)
            + 0.05 * 100)) 0) 100
    ∧ 0 ≤ calculate_rank_score eligibility_score scheme profile doc_readiness success_prob
    ∧ calculate_rank_score eligibility_score scheme profile doc_readiness success_prob ≤ 100 := by
  have heq : calculate_rank_score eligibility_score scheme profile doc_readiness success_prob
      = min (max (pyRound2 (0.35 * eligibility_score
            + 0.25 * min (estimate_benefit scheme profile / 50000 * 100) 100
            + 0.15 * min (((scheme.priority_weight).getD 1) * 100) 100
            + 0.10 * (doc_readiness * 100)
            + 0.10 * (success_prob * 100)
            + 0.05 * 100)) 0) 100 := rfl
  refine ⟨heq, ?_, ?_⟩
  · rw [heq]; exact le_min (le_max_right _ _) (by norm_num)
  · rw [heq]; exact min_le_right _ _

/-- C10: with non-negative benefit parameters, non-negative priority weight
and in-range inputs, the rank score is at least 5 (never 0), because the
recency component contributes a constant 0.05·100 and every other component
is non-negative. -/
theorem C10_rank_score_floor (eligibility_score : ℚ) (scheme : Scheme)
    (profile : FarmerProfile) (doc_readiness success_prob : ℚ)
    (hmb : 0 ≤ (scheme.max_benefit).getD 10000)
    (hph : 0 ≤ (scheme.benefit_per_hectare).getD 5000)
    (hpc : 0 ≤ (scheme.benefit_percentage).getD 50)
    (hba : 0 ≤ (scheme.base_amount).getD 10000)
    (hpw : 0 ≤ (scheme.priority_weight).getD 1)
    (hacr : 0 ≤ profile.acreage)
    (he0 : 0 ≤ eligibility_score) (he1 : eligibility_score ≤ 100)
    (hd0 : 0 ≤ doc_readiness) (hd1 : doc_readiness ≤ 1)
    (hs0 : 0 ≤ success_prob) (hs1 : success_prob ≤ 1) :
    5 ≤ calculate_rank_score eligibility_score scheme profile doc_readiness success_prob
    ∧ calculate_rank_score eligibility_score scheme profile doc_readiness success_prob ≠ 0 := by
  have hbenefit : 0 ≤ estimate_benefit scheme profile := by
    simp only [estimate_benefit]
    split_ifs with h1 h2
    · exact le_min (mul_nonneg hph hacr) hmb
    · exact le_min (mul_nonneg hba (by linarith)) hmb
    · exact hmb
  have heq : calculate_rank_score eligibility_score scheme profile doc_readiness success_prob
      = min (max (pyRound2 (0.35 * eligibility_score
            + 0.25 * min (estimate_benefit scheme profile / 50000 * 100) 100
            + 0.15 * min (((scheme.priority_weight).getD 1) * 100) 100
            + 0.10 * (doc_readiness * 100)
            + 0.10 * (success_prob * 100)
            + 0.05 * 100)) 0) 100 := rfl
  have h2 : (0 : ℚ) ≤ min (estimate_benefit scheme profile / 50000 * 100) 100 :=
    le_min (mul_nonneg (div_nonneg hbenefit (by norm_num)) (by norm_num)) (by norm_num)
  have h3 : (0 : ℚ) ≤ min (((scheme.priority_weight).getD 1) * 100) 100 :=
    le_min (mul_nonneg hpw (by norm_num)) (by norm_num)
  have hT : (5 : ℚ) ≤ 0.35 * eligibility_score
      + 0.25 * min (estimate_benefit scheme profile / 50000 * 100) 100
      + 0.15 * min (((scheme.priority_weight).getD 1) * 100) 100
      + 0.10 * (doc_readiness * 100)
      + 0.10 * (success_prob * 100)
      + 0.05 * 100 := by linarith
  have h5 : (5 : ℚ) ≤ pyRound2 (0.35 * eligibility_score
      + 0.25 * min (estimate_benefit scheme profile / 50000 * 100) 100
      + 0.15 * min (((scheme.priority_weight).getD 1) * 100) 100
      + 0.10 * (doc_readiness * 100)
      + 0.10 * (success_prob * 100)
      + 0.05 * 100) := by
    have hm := pyRound2_mono hT
    have h50 : pyRound2 (5 : ℚ) = 5 := by decide
    linarith
  rw [heq]
  constructor
  · exact le_min (le_trans h5 (le_max_left _ _)) (by norm_num)
  · intro h0
    have : (5 : ℚ) ≤ min (max (pyRound2 (0.35 * eligibility_score
        + 0.25 * min (estimate_benefit scheme profile / 50000 * 100) 100
        + 0.15 * min (((scheme.priority_weight).getD 1) * 100) 100
        + 0.10 * (doc_readiness * 100)
        + 0.10 * (success_prob * 100)
        + 0.05 * 100)) 0) 100 :=
      le_min (le_trans h5 (le_max_left _ _)) (by norm_num)
    rw [h0] at this
    linarith

/-- Witness for C10 at a concrete scheme, profile and inputs. -/
theorem C10_rank_score_floor_witness :
    (0 ≤ (({} : Scheme).max_benefit).getD 10000
      ∧ 0 ≤ (({} : Scheme).benefit_per_hectare).getD 5000
      ∧ 0 ≤ (({} : Scheme).benefit_percentage).getD 50
      ∧ 0 ≤ (({} : Scheme).base_amount).getD 10000
      ∧ 0 ≤ (({} : Scheme).priority_weight).getD 1
      ∧ 0 ≤ p0.acreage
      ∧ (0 : ℚ) ≤ 80 ∧ (80 : ℚ) ≤ 100
      ∧ (0 : ℚ) ≤ 1 ∧ (1 : ℚ) ≤ 1
      ∧ (0 : ℚ) ≤ 1/2 ∧ (1/2 : ℚ) ≤ 1)
    ∧ 5 ≤ calculate_rank_score 80 {} p0 1 (1/2)
    ∧ calculate_rank_score 80 {} p0 1 (1/2) ≠ 0 :=
  ⟨by refine ⟨by decide, by decide, by decide, by decide, by decide, by decide,
      by decide, by decide, by decide, by decide, by decide, by decide⟩,
   C10_rank_score_floor 80 {} p0 1 (1/2) (by decide) (by decide) (by decide)
     (by decide) (by decide) (by decide) (by decide) (by decide) (by decide)
     (by decide) (by decide) (by decide)⟩

/-- C8: the eligibility percentage is monotonically non-decreasing when one
rule's verdict flips from failed to passed, all other rule verdicts and the
document inputs staying fixed. -/
theorem C8_percentage_monotone (scheme : Scheme) (profile : FarmerProfile)
    (matched failing : List RuleMatch) (docs : Option (List String))
    (r : RuleMatch) (hr : r.passed = false) :
    (calculate_score scheme profile matched (r :: failing) docs).eligibility_score
      ≤ (calculate_score scheme profile ({r with passed := true} :: matched)
          failing docs).eligibility_score := by
  rw [calculate_score_eligibility_eq, calculate_score_eligibility_eq]
  apply pyRound2_mono
  have h1 := get_cat_score_move ["acreage", "land_area", "land_type"] matched failing r hr
  have h2 := get_cat_score_move ["income", "annual_income"] matched failing r hr
  have h3 := get_cat_score_move ["crops", "main_crops"] matched failing r hr
  have h4 := get_cat_score_move ["state", "district", "village"] matched failing r hr
  have h5 := get_cat_score_move ["farmer_type"] matched failing r hr
  have h6 := get_cat_score_move ["irrigation_available", "caste_category", "livestock",
    "soil_type", "water_source", "machinery_owned", "education_level",
    "bank_account_linked", "aadhaar_linked", "loan_status"] matched failing r hr
  linarith

/-- Witness for C8 at a concrete scheme, profile and rule. -/
theorem C8_percentage_monotone_witness :
    fcFail.passed = false
    ∧ (calculate_score {} p0 [] [fcFail] Option.none).eligibility_score
      ≤ (calculate_score {} p0 [{fcFail with passed := true}] []
          Option.none).eligibility_score :=
  ⟨rfl, C8_percentage_monotone {} p0 [] [] Option.none fcFail rfl⟩

theorem lookup_eq_op : OPERATORS.lookup "==" = some opEqFn := rfl

theorem lookup_ne_op : OPERATORS.lookup "!=" = some opNeFn := rfl

theorem lookup_lt_op : OPERATORS.lookup "<" = some opLtFn := rfl

theorem lookup_le_op : OPERATORS.lookup "<=" = some opLeFn := rfl

theorem lookup_gt_op : OPERATORS.lookup ">" = some opGtFn := rfl

theorem lookup_ge_op : OPERATORS.lookup ">=" = some opGeFn := rfl

theorem lookup_in_op : OPERATORS.lookup "in" = some opInFn := rfl

theorem lookup_not_in_op : OPERATORS.lookup "not_in" = some opNotInFn := rfl

theorem lookup_contains_op : OPERATORS.lookup "contains" = some opContainsFn := rfl

theorem lookup_any_in_op : OPERATORS.lookup "any_in" = some opAnyInFn := rfl

theorem lookup_equals_op : OPERATORS.lookup "equals" = some opEqualsFn := rfl

/-- C4 counterexample: the rule field `acreage` resolves on `p0` and the
profile value differs from the expected value, so per the claim a
`not_equals` rule should pass; the engine instead treats `not_equals` as an
unknown operator and fails the rule with the `Unknown operator` diagnostic. -/
theorem C4_counterexample :
    get_profile_value p0 "acreage" = some (Value.num 1.5)
    ∧ pyEq (Value.num 1.5) (Value.num 99) = false
    ∧ (evaluate_rule "acreage" "not_equals" (Value.num 99) Option.none Option.none p0).passed = false
    ∧ (evaluate_rule "acreage" "not_equals" (Value.num 99) Option.none Option.none p0).description
        = "Unknown operator: not_equals" :=
  ⟨by decide, by decide, by decide, by decide⟩

/-- C4 (amended): the operator names the engine supports are the symbols
`==`, `!=`, `<`, `<=`, `>`, `>=` together with `in`, `not_in`, `contains`,
`any_in` and the alias `equals`, each with the stated comparison semantics on
a resolvable field; the longhand names `not_equals`, `less_than`,
`less_or_equal`, `greater_than`, `greater_or_equal` are not in the operator
table and fail the rule with an `Unknown operator` diagnostic. -/
theorem C4_operators_amended (p : FarmerProfile) (field : String) (v : Value)
    (idOpt descOpt : Option String) (actual : Value)
    (hf : get_profile_value p field = some actual) :
    (evaluate_rule field "==" v idOpt descOpt p).passed = pyEq actual v
    ∧ (evaluate_rule field "!=" v idOpt descOpt p).passed = !pyEq actual v
    ∧ (evaluate_rule field "equals" v idOpt descOpt p).passed
        = (strLower (pyStr actual) == strLower (pyStr v))
    ∧ (evaluate_rule field "<" v idOpt descOpt p).passed
        = (match pyFloatE actual, pyFloatE v with
           | Except.ok a, Except.ok b => decide (a < b)
           | _, _ => false)
    ∧ (evaluate_rule field "<=" v idOpt descOpt p).passed
        = (match pyFloatE actual, pyFloatE v with
           | Except.ok a, Except.ok b => decide (a ≤ b)
           | _, _ => false)
    ∧ (evaluate_rule field ">" v idOpt descOpt p).passed
        = (match pyFloatE actual, pyFloatE v with
           | Except.ok a, Except.ok b => decide (b < a)
           | _, _ => false)
    ∧ (evaluate_rule field ">=" v idOpt descOpt p).passed
        = (match pyFloatE actual, pyFloatE v with
           | Except.ok a, Except.ok b => decide (b ≤ a)
           | _, _ => false)
    ∧ (evaluate_rule field "in" v idOpt descOpt p).passed
        = (match v with
           | Value.list ys => ys.any (fun y => pyEq actual y)
           | _ => strContains (strLower (pyStr actual)) (strLower (pyStr v)))
    ∧ (evaluate_rule field "not_in" v idOpt descOpt p).passed
        = (match v with
           | Value.list ys => !(ys.any (fun y => pyEq actual y))
           | _ => !(strContains (strLower (pyStr actual)) (strLower (pyStr v))))
    ∧ (evaluate_rule field "contains" v idOpt descOpt p).passed
        = (match actual with
           | Value.list xs => xs.any (fun x => strContains (strLower (pyStr v)) (strLower (pyStr x)))
           | _ => strContains (strLower (pyStr v)) (strLower (pyStr actual)))
    ∧ (evaluate_rule field "any_in" v idOpt descOpt p).passed
        = (match opAnyInFn actual v with
           | Except.ok b => b
           | Except.error _ => false)
    ∧ (∀ op ∈ (["not_equals", "less_than", "less_or_equal", "greater_than",
          "greater_or_equal"] : List String),
        (evaluate_rule field op v idOpt descOpt p).passed = false
        ∧ (evaluate_rule field op v idOpt descOpt p).description = "Unknown operator: " ++ op) := by
  refine ⟨?_, ?_, ?_, ?_, ?_, ?_, ?_, ?_, ?_, ?_, ?_, ?_⟩
  · simp only [evaluate_rule, hf, lookup_eq_op, opEqFn]
  · simp only [evaluate_rule, hf, lookup_ne_op, opNeFn]
  · simp only [evaluate_rule, hf, lookup_equals_op, opEqualsFn]
  · simp only [evaluate_rule, hf, lookup_lt_op]
    cases hA : pyFloatE actual <;> cases hB : pyFloatE v <;> simp [opLtFn, hA, hB]
  · simp only [evaluate_rule, hf, lookup_le_op]
    cases hA : pyFloatE actual <;> cases hB : pyFloatE v <;> simp [opLeFn, hA, hB]
  · simp only [evaluate_rule, hf, lookup_gt_op]
    cases hA : pyFloatE actual <;> cases hB : pyFloatE v <;> simp [opGtFn, hA, hB]
  · simp only [evaluate_rule, hf, lookup_ge_op]
    cases hA : pyFloatE actual <;> cases hB : pyFloatE v <;> simp [opGeFn, hA, hB]
  · simp only [evaluate_rule, hf, lookup_in_op]
    cases v <;> simp [opInFn]
  · simp only [evaluate_rule, hf, lookup_not_in_op]
    cases v <;> simp [opNotInFn]
  · simp only [evaluate_rule, hf, lookup_contains_op]
    cases actual <;> simp [opContainsFn]
  · simp only [evaluate_rule, hf, lookup_any_in_op]
  · intro op hop
    simp only [List.mem_cons, List.not_mem_nil, or_false] at hop
    rcases hop with h | h | h | h | h <;> subst h <;>
      exact ⟨by simp only [evaluate_rule, hf]; rfl, by simp only [evaluate_rule, hf]; rfl⟩

/-- Witness for C4 (amended) at a concrete profile, field and value. -/
theorem C4_operators_amended_witness :
    get_profile_value p0 "acreage" = some (Value.num 1.5)
    ∧ (evaluate_rule "acreage" "<" (Value.num 2) Option.none Option.none p0).passed = true := by
  have h := C4_operators_amended p0 "acreage" (Value.num 2) Option.none Option.none
    (Value.num 1.5) (by decide)
  refine ⟨by decide, ?_⟩
  rw [h.2.2.2.1]
  decide

/-- A rule whose lowercased field lies in no category list contributes to no
category sub-score. -/
theorem get_cat_score_skip (F : List String) (matched failing : List RuleMatch)
    (r : RuleMatch) (hP : F.contains (strLower r.field) = false) :
    get_cat_score F (matched ++ (r :: failing)) = get_cat_score F (matched ++ failing) := by
  simp only [get_cat_score, List.filter_append, List.filter_cons, hP,
    Bool.false_eq_true, ite_false]

/-- C5 counterexample: the field `family_count` (a legitimate profile field)
lies in none of the seven category lists, so a failing `family_count` rule
contributes to no category sub-score and the eligibility percentage stays at
100 despite the failing rule — contradicting the claim that every rule's
field maps into exactly one category. -/
theorem C5_counterexample :
    (categories.all (fun c => !(c.2.contains (strLower fcFail.field)))) = true
    ∧ fcFail.passed = false
    ∧ (calculate_score {} p0 [] [fcFail] Option.none).eligibility_score = 100 :=
  ⟨by decide, rfl, by decide⟩

/-- C5 (amended): the seven category weights are as stated and sum to 1,
the category field lists are pairwise disjoint (a listed field lies in
exactly one category), a category's sub-score is passed/total and an empty
category defaults to 1.0 — but a rule whose field appears in no category
list (such as `family_count`) contributes to no category sub-score and
leaves the eligibility percentage unchanged. -/
theorem C5_categories_amended :
    ((WEIGHTS.map (fun cw => cw.2)).sum = 1)
    ∧ (List.Pairwise (fun a b => a.2.all (fun f => !(b.2.contains f)) = true) categories)
    ∧ (∀ (F : List String) (rules : List RuleMatch),
        (rules.filter (fun rm => F.contains (strLower rm.field))).isEmpty = true →
        get_cat_score F rules = 1)
    ∧ (∀ (F : List String) (rules : List RuleMatch),
        (rules.filter (fun rm => F.contains (strLower rm.field))).isEmpty = false →
        get_cat_score F rules
          = (((rules.filter (fun rm => F.contains (strLower rm.field))).filter
              (fun rm => rm.passed)).length : ℚ)
            / ((rules.filter (fun rm => F.contains (strLower rm.field))).length : ℚ))
    ∧ (∀ (scheme : Scheme) (profile : FarmerProfile)
        (matched failing : List RuleMatch) (docs : Option (List String)) (r : RuleMatch),
        (categories.all (fun c => !(c.2.contains (strLower r.field)))) = true →
        (calculate_score scheme profile matched (r :: failing) docs).eligibility_score
          = (calculate_score scheme profile matched failing docs).eligibility_score) := by
  refine ⟨by decide, by decide, ?_, ?_, ?_⟩
  · intro F rules h
    simp only [get_cat_score, h, eq_self_iff_true, if_true]
  · intro F rules h
    simp only [get_cat_score, h, Bool.false_eq_true, ite_false]
  · intro scheme profile matched failing docs r hcat
    rw [calculate_score_eligibility_eq, calculate_score_eligibility_eq]
    simp only [categories, List.all_cons, List.all_nil, Bool.and_eq_true,
      Bool.not_eq_true'] at hcat
    obtain ⟨h1, h2, h3, h4, h5, _, h7, _⟩ := hcat
    rw [get_cat_score_skip _ _ _ _ h1, get_cat_score_skip _ _ _ _ h2,
        get_cat_score_skip _ _ _ _ h3, get_cat_score_skip _ _ _ _ h4,
        get_cat_score_skip _ _ _ _ h5, get_cat_score_skip _ _ _ _ h7]

/-- Witness for C5 (amended) at concrete categories, rules and profile. -/
theorem C5_categories_amended_witness :
    (([] : List RuleMatch).filter
        (fun rm => (["income", "annual_income"] : List String).contains (strLower rm.field))).isEmpty = true
    ∧ get_cat_score ["income", "annual_income"] [] = 1
    ∧ ([incomePass].filter
        (fun rm => (["income", "annual_income"] : List String).contains (strLower rm.field))).isEmpty = false
    ∧ get_cat_score ["income", "annual_income"] [incomePass] = (1 : ℚ) / 1
    ∧ (categories.all (fun c => !(c.2.contains (strLower fcFail.field)))) = true
    ∧ (calculate_score {} p0 [] [fcFail] Option.none).eligibility_score
        = (calculate_score {} p0 [] [] Option.none).eligibility_score := by
  refine ⟨by decide, C5_categories_amended.2.2.1 _ _ (by decide), by decide, ?_,
    by decide, C5_categories_amended.2.2.2.2 {} p0 [] [] Option.none fcFail (by decide)⟩
  have h := C5_categories_amended.2.2.2.1 ["income", "annual_income"] [incomePass] (by decide)
  rw [h]
  decide

/-- C1 counterexample: in a rule tree with one nested OR group containing a
passing leaf (`ruleA`) and a failing leaf (`ruleB`), the nested group passes
and only its matched rules propagate, so `ruleB`'s `RuleMatch` — although
evaluated as part of the flattened rule set — appears in neither the matched
nor the failing list of the program evaluation. -/
theorem C1_counterexample :
    (evaluate_rule "income" "<=" (Value.num 1000) Option.none Option.none p0)
        ∈ leaf_matches p0 nested_conds
    ∧ (evaluate_rule "income" "<=" (Value.num 1000) Option.none Option.none p0)
        ∉ (evaluate_condition_group nested_conds p0 "AND").2.1
    ∧ (evaluate_rule "income" "<=" (Value.num 1000) Option.none Option.none p0)
        ∉ (evaluate_condition_group nested_conds p0 "AND").2.2 :=
  ⟨by decide, by decide, by decide⟩

/-- C1 (amended): when every condition of a group is a leaf rule, the union
(as a permutation) of the matched and failing lists is exactly the full
flattened rule set; a nested group instead propagates only its matched rules
when it passed and only its failing rules when it failed, so the leaves on
the other side of a nested group are dropped. -/
theorem C1_union_amended :
    (∀ (profile : FarmerProfile) (conds : List Condition),
      (∀ c ∈ conds, c.isLeaf = true) →
      List.Perm ((evaluate_conditions profile (condListOf conds)).1
          ++ (evaluate_conditions profile (condListOf conds)).2)
        (leaf_matches profile (condListOf conds)))
    ∧ (∀ (profile : FarmerProfile) (lg : Option String) (nested rest : CondList),
      evaluate_conditions profile (CondList.cons (Condition.group lg nested) rest)
        = (if group_pass (lg.getD "AND") (evaluate_conditions profile nested).1
              (evaluate_conditions profile nested).2 = true
           then ((evaluate_conditions profile nested).1
                  ++ (evaluate_conditions profile rest).1,
                 (evaluate_conditions profile rest).2)
           else ((evaluate_conditions profile rest).1,
                 (evaluate_conditions profile nested).2
                  ++ (evaluate_conditions profile rest).2))) := by
  constructor
  · intro profile conds hleaf
    induction conds with
    | nil => simp [condListOf, evaluate_conditions, leaf_matches]
    | cons c rest ih =>
        have hc := hleaf c (List.mem_cons_self c rest)
        have hrest : ∀ x ∈ rest, x.isLeaf = true :=
          fun x hx => hleaf x (List.mem_cons_of_mem c hx)
        cases c with
        | group lg cs => simp [Condition.isLeaf] at hc
        | rule f op v i d =>
            simp only [condListOf, evaluate_conditions, evaluate_cond,
              leaf_matches, leaf_matches_cond]
            by_cases hpass : (evaluate_rule f op v i d profile).passed = true
            · simp only [hpass, if_true, List.cons_append, List.singleton_append]
              exact (ih hrest).cons _
            · simp only [hpass, if_false, List.singleton_append]
              exact (List.perm_middle).trans ((ih hrest).cons _)
  · intro profile lg nested rest
    rfl

/-- Witness for C1 (amended) at a concrete flat rule list and profile. -/
theorem C1_union_amended_witness :
    (∀ c ∈ [ruleA, ruleB], c.isLeaf = true)
    ∧ List.Perm ((evaluate_conditions p0 (condListOf [ruleA, ruleB])).1
        ++ (evaluate_conditions p0 (condListOf [ruleA, ruleB])).2)
      (leaf_matches p0 (condListOf [ruleA, ruleB])) :=
  ⟨by decide, C1_union_amended.1 p0 [ruleA, ruleB] (by decide)⟩

/-- The recommendation ordering is total. -/
theorem rec_le_total (a b : SchemeRecommendation) : (rec_le a b || rec_le b a) = true := by
  simp only [rec_le, Bool.or_eq_true, decide_eq_true_eq]
  rcases lt_trichotomy (status_bucket a.eligibility_status) (status_bucket b.eligibility_status) with h | h | h
  · exact Or.inl (Or.inl h)
  · rcases le_total b.score a.score with hs | hs
    · exact Or.inl (Or.inr ⟨h, hs⟩)
    · exact Or.inr (Or.inr ⟨h.symm, hs⟩)
  · exact Or.inr (Or.inl h)

/-- The recommendation ordering is transitive. -/
theorem rec_le_trans (a b c : SchemeRecommendation) (hab : rec_le a b = true)
    (hbc : rec_le b c = true) : rec_le a c = true := by
  simp only [rec_le, decide_eq_true_eq] at hab hbc ⊢
  rcases hab with h1 | ⟨h1, s1⟩ <;> rcases hbc with h2 | ⟨h2, s2⟩
  · exact Or.inl (lt_trans h1 h2)
  · exact Or.inl (h2 ▸ h1)
  · exact Or.inl (h1 ▸ h2)
  · exact Or.inr ⟨h1.trans h2, s2.trans s1⟩

/-- C7: the returned recommendation list is ordered primarily by
eligibility-status bucket ascending (eligible, then partially eligible, then
ineligible) and secondarily by rank score descending; recommendations with
identical status and score keep their original program evaluation order
(stability of the sort); and the output is truncated to at most `top_k`
entries. -/
theorem C7_ordering (model : Option (FarmerProfile → Scheme → Except String ℚ))
    (eligible_results : List EvalResult) (profile : FarmerProfile)
    (documents : Option (List DocumentFields)) (top_k : ℕ)
    (recs : List SchemeRecommendation)
    (hbuild : eligible_results.mapM (build_recommendationE model profile documents)
        = Except.ok recs) :
    rank_schemes model eligible_results profile documents top_k
        = Except.ok ((recs.mergeSort rec_le).take top_k)
    ∧ List.Perm (recs.mergeSort rec_le) recs
    ∧ List.Pairwise (fun a b =>
        status_bucket a.eligibility_status < status_bucket b.eligibility_status
        ∨ (status_bucket a.eligibility_status = status_bucket b.eligibility_status
           ∧ b.score ≤ a.score)) (recs.mergeSort rec_le)
    ∧ (∀ a b : SchemeRecommendation,
        a.eligibility_status = b.eligibility_status → a.score = b.score →
        List.Sublist [a, b] recs → List.Sublist [a, b] (recs.mergeSort rec_le))
    ∧ ((recs.mergeSort rec_le).take top_k).length ≤ top_k := by
  refine ⟨?_, List.mergeSort_perm recs rec_le, ?_, ?_, ?_⟩
  · simp only [rank_schemes, hbuild]
    rfl
  · have hs := List.sorted_mergeSort
      (fun a b c => rec_le_trans a b c) (fun a b => rec_le_total a b) recs
    exact hs.imp (fun h => by simpa [rec_le, decide_eq_true_eq] using h)
  · intro a b hstat hscore hsub
    apply List.pair_sublist_mergeSort (fun x y z => rec_le_trans x y z)
      (fun x y => rec_le_total x y) ?_ hsub
    simp only [rec_le, decide_eq_true_eq]
    exact Or.inr ⟨by rw [hstat], by rw [hscore]⟩
  · exact List.length_take_le _ _

/-- Witness for C7 at a concrete (empty) evaluation-result list. -/
theorem C7_ordering_witness :
    ([] : List EvalResult).mapM (build_recommendationE Option.none p0 Option.none)
        = Except.ok ([] : List SchemeRecommendation)
    ∧ rank_schemes Option.none [] p0 Option.none 10
        = Except.ok ((([] : List SchemeRecommendation).mergeSort rec_le).take 10) :=
  ⟨rfl, (C7_ordering Option.none [] p0 Option.none 10 [] rfl).1⟩

/-- A successful `Except` computation yields a value. -/
theorem exists_ok_of_isOk {e a : Type} {x : Except e a} (h : exceptIsOk x = true) :
    ∃ v, x = Except.ok v := by
  cases x with
  | ok v => exact ⟨v, rfl⟩
  | error s => simp [exceptIsOk] at h

/-- Explanation generation never raises: the branches that index
`failing_rules[0]` are guarded by the emptiness test of the first branch. -/
theorem generate_explanationE_ok (scheme : Scheme) (m f : List RuleMatch) (b : ℚ) :
    ∃ x, generate_explanationE scheme m f b = Except.ok x := by
  cases f with
  | nil => exact ⟨_, rfl⟩
  | cons f0 fs =>
      apply exists_ok_of_isOk
      simp only [generate_explanationE, List.length_cons, Nat.succ_ne_zero, if_false]
      by_cases hm : fs.length + 1 < m.length
      · simp only [hm, if_true]
        rfl
      · simp only [hm, if_false]
        rfl

/-- With no document list supplied, building one recommendation never
raises. -/
theorem build_recommendationE_ok
    (model : Option (FarmerProfile → Scheme → Except String ℚ))
    (profile : FarmerProfile) (res : EvalResult) :
    ∃ r, build_recommendationE model profile Option.none res = Except.ok r := by
  obtain ⟨x, hx⟩ := generate_explanationE_ok res.scheme res.matched_rules
    res.failing_rules (estimate_benefit res.scheme profile)
  apply exists_ok_of_isOk
  simp only [build_recommendationE, doc_names_of]
  rw [hx]
  rfl

/-- With no document list supplied, building every recommendation never
raises. -/
theorem mapM_build_ok (model : Option (FarmerProfile → Scheme → Except String ℚ))
    (profile : FarmerProfile) (results : List EvalResult) :
    ∃ l, results.mapM (build_recommendationE model profile Option.none) = Except.ok l := by
  induction results with
  | nil => exact ⟨[], rfl⟩
  | cons r rest ih =>
      obtain ⟨l, hl⟩ := ih
      obtain ⟨x, hx⟩ := build_recommendationE_ok model profile r
      refine ⟨x :: l, ?_⟩
      rw [List.mapM_cons, hx, hl]
      rfl

/-- C9: the claim is right about the intended behaviour but the code
violates it: passing any non-empty document list makes `rank_schemes` read
the attribute `field_name`, which `DocumentFields` does not have, so the
pipeline aborts with an `AttributeError` instead of returning a ranked list
(first conjunct evaluates the pipeline at such a failing input). With no
document list, the pipeline is total for every profile, scheme list, model
(including a throwing estimator — its exception is caught and replaced by
the neutral 0.5) and `top_k`, including the empty catalogue (second
conjunct). -/
theorem C9_document_crash :
    (evaluate_and_rank Option.none p0 [scheme0] (some [doc0]) 10
        = Except.error
          "AttributeError: \x27DocumentFields\x27 object has no attribute \x27field_name\x27")
    ∧ (∀ (model : Option (FarmerProfile → Scheme → Except String ℚ))
        (profile : FarmerProfile) (schemes : List Scheme) (top_k : ℕ),
        ∃ l, evaluate_and_rank model profile schemes Option.none top_k = Except.ok l) := by
  constructor
  · rfl
  · intro model profile schemes top_k
    obtain ⟨l, hl⟩ := mapM_build_ok model profile (find_eligible_schemes profile schemes)
    refine ⟨(l.mergeSort rec_le).take top_k, ?_⟩
    simp only [evaluate_and_rank, rank_schemes, hl]
    rfl

end AgriSense
